import Mathlib

/-!
Verification development for the esp32-laser-parcour firmware core:
wire codec, laser-node safety monitor, pairing channel scan,
coordinator game state machine and unit registry. Each C function of the
core is embedded as an executable Lean definition; machine integers are
modelled as `Nat` with explicit reduction modulo `2 ^ 32` (or `2 ^ 16` /
`2 ^ 8`) exactly where the C code performs fixed-width arithmetic.
-/

/-- Modulus of a 32-bit unsigned integer. -/
def U32 : Nat := 4294967296

/-- Modulus of a 16-bit unsigned integer. -/
def U16 : Nat := 65536

/-- Cast to `uint32_t`: reduction modulo `2 ^ 32`. -/
def u32 (n : Nat) : Nat := n % U32

/-- Source `uint32_t` addition (wraps modulo `2 ^ 32`). -/
def uadd32 (a b : Nat) : Nat := (a + b) % U32

/-- Source `uint32_t` subtraction (wraps modulo `2 ^ 32`). -/
def usub32 (a b : Nat) : Nat := (a % U32 + (U32 - b % U32)) % U32

/-- Source `uint32_t` multiplication (wraps modulo `2 ^ 32`). -/
def umul32 (a b : Nat) : Nat := (a * b) % U32

/-! ## Wire codec (espnow_manager.c)

The frame is the packed struct `espnow_message_t`: 1-byte `msg_type`,
1-byte `module_id`, 4-byte little-endian `timestamp`, 32-byte `data`,
2-byte little-endian `checksum` — 40 bytes in total. The checksum is
`esp_crc16_le(0, bytes, 38)`, the platform CRC-16 (reflected polynomial
0xA001, bit-inverted input and output). -/

/-- One shift-and-reduce round of the reflected CRC-16 (poly 0xA001). -/
def crc16_round (c : Nat) : Nat := if c % 2 = 1 then (c / 2) ^^^ 40961 else c / 2

/-- Fold one byte into the CRC state: xor the byte in, then 8 rounds. -/
def crc16_byte (crc b : Nat) : Nat := crc16_round^[8] (crc ^^^ b)

/-- Source `esp_crc16_le` of ESP-IDF: reflected CRC-16 with poly 0xA001 and
bit-inverted input and output, folded over a byte list. -/
def esp_crc16_le (crc : Nat) (bytes : List Nat) : Nat :=
  65535 ^^^ bytes.foldl crc16_byte (65535 ^^^ crc)

/-- Little-endian byte serialization of a `uint32_t` value. -/
def le_bytes4 (v : Nat) : List Nat :=
  [v % 256, v / 256 % 256, v / 65536 % 256, v / 16777216 % 256]

/-- Little-endian byte serialization of a `uint16_t` value. -/
def le_bytes2 (v : Nat) : List Nat := [v % 256, v / 256 % 256]

/-- Read a little-endian `uint32_t` at byte offset `i`. -/
def read_u32_le (bytes : List Nat) (i : Nat) : Nat :=
  bytes.getD i 0 + 256 * bytes.getD (i + 1) 0 + 65536 * bytes.getD (i + 2) 0 +
    16777216 * bytes.getD (i + 3) 0

/-- Read a little-endian `uint16_t` at byte offset `i`. -/
def read_u16_le (bytes : List Nat) (i : Nat) : Nat :=
  bytes.getD i 0 + 256 * bytes.getD (i + 1) 0

/-- The decoded view of the packed `espnow_message_t` struct. -/
structure EspnowMessage where
  msgType : Nat
  moduleId : Nat
  timestamp : Nat
  data : List Nat
  checksum : Nat
deriving DecidableEq

/-- Field extraction from a received 40-byte frame, mirroring the packed
little-endian layout of `espnow_message_t`. -/
def parse_message (bytes : List Nat) : EspnowMessage :=
  { msgType := bytes.getD 0 0
    moduleId := bytes.getD 1 0
    timestamp := read_u32_le bytes 2
    data := (bytes.drop 6).take 32
    checksum := read_u16_le bytes 38 }

/-- Source `espnow_recv_cb`: reject a frame whose length is not
`sizeof(espnow_message_t) = 40` or whose recomputed CRC over the first 38
bytes differs from the carried checksum; otherwise hand the decoded
message to the registered callback (`some`). -/
def espnow_recv_cb (bytes : List Nat) : Option EspnowMessage :=
  if bytes.length ≠ 40 then none
  else
    let msg := parse_message bytes
    if esp_crc16_le 0 (bytes.take 38) ≠ msg.checksum then none
    else some msg

/-- State mutation caused by one received frame: the registered callback
runs only when `espnow_recv_cb` accepted the frame. -/
def recv_update {σ : Type} (callback : EspnowMessage → σ → σ) (bytes : List Nat) (s : σ) : σ :=
  match espnow_recv_cb bytes with
  | none => s
  | some msg => callback msg s

/-- Source `espnow_send_message`: refuse payloads above 32 bytes, otherwise build
the packed frame (zero-padded payload) and append the CRC over the first
38 bytes, little-endian. -/
def espnow_send_frame (msgType moduleId timestamp : Nat) (data : List Nat) :
    Option (List Nat) :=
  if data.length > 32 then none
  else
    let body := msgType % 256 :: moduleId % 256 ::
      (le_bytes4 timestamp ++ (data ++ List.replicate (32 - data.length) 0))
    some (body ++ le_bytes2 (esp_crc16_le 0 body))

/-! ## Laser-node safety monitor (module_laser.c) -/

/-- Source `laser_status_t` of laser_control.h. -/
inductive LaserStatus
  | off
  | on
deriving DecidableEq

/-- The file-scope state of module_laser.c relevant to the safety
monitor: pairing flag, game-mode flag, emitter status (laser_control.c)
and the indicator LED levels, plus the timestamp (microseconds) of the
last heartbeat seen from the main unit. -/
structure LaserNode where
  isPaired : Bool
  isGameMode : Bool
  laser : LaserStatus
  statusLed : Bool
  ledGreen : Bool
  ledRed : Bool
  lastMainUnitHeartbeat : Nat
deriving DecidableEq

/-- Source `HEARTBEAT_TIMEOUT_US`: 30 seconds in microseconds. -/
def HEARTBEAT_TIMEOUT_US : Nat := 30000000

/-- Source `safety_timer_callback`: if paired and a heartbeat has been seen
(`last > 0`) and the gap to `now` exceeds the timeout while the emitter
is on, turn the laser off, clear the green LED and raise the red LED. -/
def safety_timer_callback (n : LaserNode) (now : Nat) : LaserNode :=
  if n.isPaired = false then n
  else if n.lastMainUnitHeartbeat > 0 then
    if now - n.lastMainUnitHeartbeat > HEARTBEAT_TIMEOUT_US then
      if n.laser = LaserStatus.on then
        { n with laser := LaserStatus.off, ledGreen := false, ledRed := true }
      else n
    else n
  else n

/-! ## Pairing channel scan (module_laser.c / module_finish.c) -/

/-- Observable side effects of one pairing-timer tick: the role byte of a
broadcast `PairingRequest`, if one was sent, and the channel switched to,
if a switch happened. -/
structure TickEffects where
  sentPairingRequestRole : Option Nat
  switchedToChannel : Option Nat
deriving DecidableEq

/-- Scan state of the laser module: `current_scan_channel` and
`scan_attempts_on_channel` (both `uint8_t`). -/
structure LaserScan where
  isPaired : Bool
  currentScanChannel : Nat
  scanAttemptsOnChannel : Nat
deriving DecidableEq

/-- Source `MAX_ATTEMPTS_PER_CHANNEL` of module_laser.c. -/
def MAX_ATTEMPTS_PER_CHANNEL : Nat := 1

/-- Source `MAX_WIFI_CHANNEL` of module_laser.c. -/
def MAX_WIFI_CHANNEL : Nat := 13

/-- Source `pairing_timer_callback` of module_laser.c: while unpaired broadcast
a role-1 `PairingRequest`, count the attempt, and after
`MAX_ATTEMPTS_PER_CHANNEL` attempts move to the next channel, wrapping
from 13 back to 1, and reset the counter. -/
def laser_pairing_timer_callback (s : LaserScan) : LaserScan × TickEffects :=
  if s.isPaired then (s, ⟨none, none⟩)
  else
    let attempts := (s.scanAttemptsOnChannel + 1) % 256
    if attempts ≥ MAX_ATTEMPTS_PER_CHANNEL then
      let bumped := (s.currentScanChannel + 1) % 256
      let ch := if bumped > MAX_WIFI_CHANNEL then 1 else bumped
      ({ s with scanAttemptsOnChannel := 0, currentScanChannel := ch },
       ⟨some 1, some ch⟩)
    else
      ({ s with scanAttemptsOnChannel := attempts }, ⟨some 1, none⟩)

/-- Source `scanning_channels` of module_finish.c. -/
def scanning_channels : List Nat := [1, 6, 11]

/-- Scan state of the finish-button module: the `channel_scanning` flag
and `scanning_channel_index` into `scanning_channels`. -/
structure FinishScan where
  isPaired : Bool
  channelScanning : Bool
  scanningChannelIndex : Nat
deriving DecidableEq

/-- Source `pairing_timer_callback` of module_finish.c: while unpaired, if the
scanning flag is set switch to `scanning_channels[index]` and advance the
index modulo the sequence length; in every unpaired tick broadcast a
role-2 `PairingRequest`. -/
def finish_pairing_timer_callback (s : FinishScan) : FinishScan × TickEffects :=
  if s.isPaired then (s, ⟨none, none⟩)
  else if s.channelScanning then
    let target := scanning_channels.getD s.scanningChannelIndex 0
    ({ s with scanningChannelIndex :=
        (s.scanningChannelIndex + 1) % scanning_channels.length },
     ⟨some 2, some target⟩)
  else (s, ⟨some 2, none⟩)

/-! ## Coordinator game state machine (game_logic.c) -/

/-- Source `game_state_t`. -/
inductive GameState
  | idle
  | ready
  | countdown
  | running
  | penalty
  | paused
  | complete
  | error
deriving DecidableEq

/-- Source `completion_status_t`. -/
inductive Completion
  | none
  | solved
  | abortedTime
  | abortedManual
deriving DecidableEq

/-- Source `game_mode_t`. -/
inductive GameMode
  | singleSpeedrun
  | multiplayer
  | training
  | custom
deriving DecidableEq

/-- Source `player_data_t`; times in milliseconds are `uint32_t`,
`beam_breaks` is `uint16_t`. -/
structure PlayerData where
  playerId : Nat
  name : String
  startTime : Nat
  endTime : Nat
  elapsedTime : Nat
  beamBreaks : Nat
  completion : Completion
  isActive : Bool
deriving DecidableEq

/-- Source `game_stats_t`. -/
structure GameStats where
  totalGames : Nat
  bestTime : Nat
  worstTime : Nat
  avgTime : Nat
  totalBeamBreaks : Nat
  totalPlaytime : Nat
deriving DecidableEq

/-- Source `game_config_t`. -/
structure GameConfig where
  mode : GameMode
  maxTime : Nat
  penaltyTime : Nat
  countdownTime : Nat
  maxPlayers : Nat
deriving DecidableEq

/-- The file-scope game state of game_logic.c guarded by `game_mutex`:
current state, player record, statistics, configuration and the penalty
bookkeeping (`penalty_start_time`, `total_penalty_time`, both ms). -/
structure GameLogic where
  currentState : GameState
  currentPlayer : PlayerData
  statistics : GameStats
  configuration : GameConfig
  penaltyStartTime : Nat
  totalPenaltyTime : Nat
deriving DecidableEq

/-- The zeroed player record produced by `memset`. -/
def zero_player : PlayerData :=
  { playerId := 0, name := "", startTime := 0, endTime := 0, elapsedTime := 0,
    beamBreaks := 0, completion := Completion.none, isActive := false }

/-- The compile-time initial configuration of game_logic.c. -/
def initial_configuration : GameConfig :=
  { mode := GameMode.singleSpeedrun, maxTime := 0, penaltyTime := 15,
    countdownTime := 5, maxPlayers := 8 }

/-- Source `game_logic_init`: idle state, zeroed player and statistics. -/
def game_logic_init : GameLogic :=
  { currentState := GameState.idle, currentPlayer := zero_player,
    statistics := { totalGames := 0, bestTime := 0, worstTime := 0, avgTime := 0,
                    totalBeamBreaks := 0, totalPlaytime := 0 },
    configuration := initial_configuration,
    penaltyStartTime := 0, totalPenaltyTime := 0 }

/-- Source `PENALTY_DISPLAY_TIME_MS`. -/
def PENALTY_DISPLAY_TIME_MS : Nat := 3000

/-- Source `esp_err_t` results used by game_logic.c. -/
inductive EspErr
  | ok
  | fail
  | invalidState
  | invalidArg
  | notFound
deriving DecidableEq

/-! ## Coordinator unit registry (game_logic.c) -/

/-- Source `laser_unit_info_t`. -/
structure LaserUnitInfo where
  moduleId : Nat
  mac : List Nat
  isOnline : Bool
  laserOn : Bool
  lastSeen : Nat
  rssi : Int
  status : String
  role : Nat
deriving DecidableEq

/-- Source `MAX_LASER_UNITS`. -/
def MAX_LASER_UNITS : Nat := 10

/-- The in-place refresh applied by `update_laser_unit` to a record whose
`module_id` matches: new MAC, `last_seen := now`, RSSI, online, and the
role only when the reported role is non-zero. -/
def refreshed_unit (u : LaserUnitInfo) (mac : List Nat) (rssi : Int) (role now : Nat) :
    LaserUnitInfo :=
  { u with mac := mac, lastSeen := u32 now, rssi := rssi, isOnline := true,
           role := if role ≠ 0 then role else u.role }

/-- The record appended by `update_laser_unit` for a previously unseen
`module_id`; a zero (unknown) role defaults to 1 (laser). -/
def new_unit (moduleId : Nat) (mac : List Nat) (rssi : Int) (role now : Nat) :
    LaserUnitInfo :=
  { moduleId := moduleId, mac := mac, lastSeen := u32 now, rssi := rssi,
    isOnline := true, laserOn := false, status := "Active",
    role := if role = 0 then 1 else role }

/-- The search-and-update loop of `update_laser_unit`: refresh the first
record whose `module_id` matches and return early; `none` when no record
matches. -/
def update_existing (moduleId : Nat) (mac : List Nat) (rssi : Int) (role now : Nat) :
    List LaserUnitInfo → Option (List LaserUnitInfo)
  | [] => none
  | u :: rest =>
    if u.moduleId = moduleId then some (refreshed_unit u mac rssi role now :: rest)
    else (update_existing moduleId mac rssi role now rest).map (u :: ·)

/-- Source `update_laser_unit`: refresh the matching record in place, else append
a new record only while fewer than `MAX_LASER_UNITS` records exist. -/
def update_laser_unit (units : List LaserUnitInfo) (moduleId : Nat) (mac : List Nat)
    (rssi : Int) (role now : Nat) : List LaserUnitInfo :=
  match update_existing moduleId mac rssi role now units with
  | some updated => updated
  | none =>
    if units.length < MAX_LASER_UNITS then
      units ++ [new_unit moduleId mac rssi role now]
    else units

/-- The per-unit test of `game_has_laser_units`: seen within the last 15
seconds and role 1 (laser). -/
def unit_is_online_laser (now : Nat) (u : LaserUnitInfo) : Bool :=
  usub32 now u.lastSeen ≤ 15000 && u.role == 1

/-- Source `game_has_laser_units`: at least one online laser-role unit. -/
def game_has_laser_units (units : List LaserUnitInfo) (now : Nat) : Bool :=
  units.any (unit_is_online_laser now)

/-- The statistics update performed by `game_finish` and `game_stop` once
the final elapsed time is known: increment the totals, fold best/worst,
and recompute the average as integer division. -/
def update_statistics (s : GameStats) (elapsed beamBreaks : Nat) : GameStats :=
  let totalGames := uadd32 s.totalGames 1
  let totalBeamBreaks := uadd32 s.totalBeamBreaks beamBreaks
  let totalPlaytime := uadd32 s.totalPlaytime elapsed
  let bestTime := if s.bestTime = 0 ∨ elapsed < s.bestTime then elapsed else s.bestTime
  let worstTime := if elapsed > s.worstTime then elapsed else s.worstTime
  { totalGames := totalGames, bestTime := bestTime, worstTime := worstTime,
    avgTime := totalPlaytime / totalGames, totalBeamBreaks := totalBeamBreaks,
    totalPlaytime := totalPlaytime }

/-- Source `game_start`: reject while RUNNING or COUNTDOWN (`ESP_FAIL`), then
reject when no laser unit is online (`ESP_ERR_INVALID_STATE`); otherwise
reset the player record, set `start_time := now`, clear the penalty
bookkeeping, store the mode and enter RUNNING. `units` is the value of
the file-scope `laser_units` registry consulted by
`game_has_laser_units`; `now` is `esp_timer_get_time() / 1000`. -/
def game_start (g : GameLogic) (units : List LaserUnitInfo) (mode : GameMode)
    (playerName : Option String) (now : Nat) : EspErr × GameLogic :=
  if g.currentState = GameState.running ∨ g.currentState = GameState.countdown then
    (EspErr.fail, g)
  else if ¬ game_has_laser_units units now then (EspErr.invalidState, g)
  else
    let player : PlayerData :=
      { playerId := 1,
        name := match playerName with
                | some s => s.take 31
                | none => "Player 1",
        startTime := u32 now, endTime := 0, elapsedTime := 0, beamBreaks := 0,
        completion := Completion.none, isActive := true }
    (EspErr.ok,
     { g with currentState := GameState.running, currentPlayer := player,
              penaltyStartTime := 0, totalPenaltyTime := 0,
              configuration := { g.configuration with mode := mode } })

/-- Source `game_finish`: only from RUNNING or PENALTY; record the end time, add
the already-accumulated penalty time to the raw elapsed time, mark the
game SOLVED, update the statistics and enter COMPLETE. -/
def game_finish (g : GameLogic) (now : Nat) : EspErr × GameLogic :=
  if g.currentState ≠ GameState.running ∧ g.currentState ≠ GameState.penalty then
    (EspErr.fail, g)
  else
    let rawElapsed := usub32 now g.currentPlayer.startTime
    let elapsed := uadd32 rawElapsed g.totalPenaltyTime
    let player := { g.currentPlayer with
      endTime := u32 now, elapsedTime := elapsed,
      completion := Completion.solved, isActive := false }
    (EspErr.ok,
     { g with currentState := GameState.complete, currentPlayer := player,
              statistics :=
                update_statistics g.statistics elapsed g.currentPlayer.beamBreaks,
              penaltyStartTime := 0 })

/-- Source `game_stop`: rejected only in IDLE; record the end time, add the
accumulated penalty time, set `ABORTED_MANUAL` unless a completion reason
is already set, update the statistics and enter COMPLETE. -/
def game_stop (g : GameLogic) (now : Nat) : EspErr × GameLogic :=
  if g.currentState = GameState.idle then (EspErr.fail, g)
  else
    let rawElapsed := usub32 now g.currentPlayer.startTime
    let elapsed := uadd32 rawElapsed g.totalPenaltyTime
    let completion := if g.currentPlayer.completion = Completion.none then
        Completion.abortedManual
      else g.currentPlayer.completion
    let player := { g.currentPlayer with
      endTime := u32 now, elapsedTime := elapsed,
      completion := completion, isActive := false }
    (EspErr.ok,
     { g with currentState := GameState.complete, currentPlayer := player,
              statistics :=
                update_statistics g.statistics elapsed g.currentPlayer.beamBreaks })

/-- Source `game_pause`: only from RUNNING. -/
def game_pause (g : GameLogic) : EspErr × GameLogic :=
  if g.currentState ≠ GameState.running then (EspErr.fail, g)
  else (EspErr.ok, { g with currentState := GameState.paused })

/-- Source `game_resume`: only from PAUSED. -/
def game_resume (g : GameLogic) : EspErr × GameLogic :=
  if g.currentState ≠ GameState.paused then (EspErr.fail, g)
  else (EspErr.ok, { g with currentState := GameState.running })

/-- Source `game_beam_broken`: only accepted in RUNNING; count the break
(`uint16_t`), and unless the mode is TRAINING enter PENALTY, start the
penalty-display timer and immediately add the full configured penalty (in
milliseconds) to `total_penalty_time`. -/
def game_beam_broken (g : GameLogic) (_sensorId : Nat) (now : Nat) : EspErr × GameLogic :=
  if g.currentState ≠ GameState.running then (EspErr.fail, g)
  else
    let player := { g.currentPlayer with
                    beamBreaks := (g.currentPlayer.beamBreaks + 1) % U16 }
    if g.configuration.mode ≠ GameMode.training then
      let penaltyDurationMs := umul32 g.configuration.penaltyTime 1000
      (EspErr.ok,
       { g with currentPlayer := player, currentState := GameState.penalty,
                penaltyStartTime := u32 now,
                totalPenaltyTime := uadd32 g.totalPenaltyTime penaltyDurationMs })
    else (EspErr.ok, { g with currentPlayer := player })

/-- Source `game_get_player_data`: first fold an expired penalty display back to
RUNNING, then snapshot the player record; while RUNNING or PENALTY the
snapshot's elapsed time is recomputed as raw wall-clock delta plus the
accumulated penalty time, and if a positive `max_time` is reached the
game auto-stops through `game_stop` with completion `ABORTED_TIME` set
first. Returns the result code, the new global state and the snapshot
written to the caller's buffer. -/
def game_get_player_data (g : GameLogic) (now : Nat) :
    EspErr × GameLogic × PlayerData :=
  let g1 :=
    if g.currentState = GameState.penalty ∧ g.penaltyStartTime > 0 then
      if usub32 now g.penaltyStartTime ≥ PENALTY_DISPLAY_TIME_MS then
        { g with penaltyStartTime := 0, currentState := GameState.running }
      else g
    else g
  let snapshot := g1.currentPlayer
  if g1.currentState = GameState.running ∨ g1.currentState = GameState.penalty then
    let rawElapsed := usub32 now g1.currentPlayer.startTime
    let snapshot := { snapshot with elapsedTime := uadd32 rawElapsed g1.totalPenaltyTime }
    if g1.configuration.maxTime > 0 ∧
        snapshot.elapsedTime ≥ umul32 g1.configuration.maxTime 1000 then
      let g2 := { g1 with currentPlayer :=
        { g1.currentPlayer with completion := Completion.abortedTime } }
      (EspErr.ok, (game_stop g2 now).2, snapshot)
    else (EspErr.ok, g1, snapshot)
  else (EspErr.ok, g1, snapshot)

/-! ## Concrete states used as witnesses and counterexamples -/

/-- A registered online laser-role unit (last seen at boot time 0). -/
def example_unit : LaserUnitInfo :=
  { moduleId := 1, mac := [1, 2, 3, 4, 5, 6], isOnline := true, laserOn := false,
    lastSeen := 0, rssi := -50, status := "Active", role := 1 }

/-- A registry holding exactly the one online laser unit. -/
def example_units : List LaserUnitInfo := [example_unit]

/-- Default record used for positional registry lookups. -/
def dflt_unit : LaserUnitInfo :=
  { moduleId := 0, mac := [], isOnline := false, laserOn := false,
    lastSeen := 0, rssi := 0, status := "", role := 0 }

/-- Game started at t = 1000 ms from the initial state. -/
def g_running : GameLogic :=
  (game_start game_logic_init example_units GameMode.singleSpeedrun none 1000).2

/-- Beam break accepted at t = 3000 ms: PENALTY state. -/
def g_penalty : GameLogic := (game_beam_broken g_running 3 3000).2

/-- Game paused from RUNNING. -/
def g_paused : GameLogic := (game_pause g_running).2

/-- Game stopped at t = 5000 ms: COMPLETE, statistics updated once. -/
def g_complete : GameLogic := (game_stop g_running 5000).2

/-- Second game over the same statistics: restarted at t = 6000 ms. -/
def g_running2 : GameLogic :=
  (game_start g_complete example_units GameMode.singleSpeedrun none 6000).2

/-- Second game stopped at t = 7000 ms (elapsed 1000 ms, faster). -/
def g_complete2 : GameLogic := (game_stop g_running2 7000).2

/-- A paired laser node with the emitter on whose last coordinator
heartbeat was at 1 microsecond. -/
def example_laser_node : LaserNode :=
  { isPaired := true, isGameMode := true, laser := LaserStatus.on,
    statusLed := false, ledGreen := true, ledRed := false,
    lastMainUnitHeartbeat := 1 }

/-- An unpaired finish node whose channel scanning was stopped by a
`ChannelChange` command received while unpaired. -/
def fs_parked : FinishScan :=
  { isPaired := false, channelScanning := false, scanningChannelIndex := 0 }

/-- The running game with a 10 s time limit configured. -/
def g_timed : GameLogic :=
  { g_running with configuration := { g_running.configuration with maxTime := 10 } }

/-- A full registry: ten laser units with distinct module ids. -/
def ten_units : List LaserUnitInfo :=
  (List.range 10).map (fun i => { dflt_unit with moduleId := i, role := 1 })

/-! ## Claim theorems -/

/-- C1: on a paired laser node that has seen a coordinator heartbeat, a
safety-check tick whose heartbeat gap exceeds the 30 s timeout turns an
emitting laser off and raises the fault indicator (red LED on, green LED
off); regardless of any other flag of the node state, the emitter is
never still on after such a tick. -/
theorem c1_safety_cutoff (n : LaserNode) (now : Nat)
    (hpaired : n.isPaired = true)
    (hseen : 0 < n.lastMainUnitHeartbeat)
    (hgap : now - n.lastMainUnitHeartbeat > HEARTBEAT_TIMEOUT_US) :
    (n.laser = LaserStatus.on →
      (safety_timer_callback n now).laser = LaserStatus.off ∧
      (safety_timer_callback n now).ledRed = true ∧
      (safety_timer_callback n now).ledGreen = false) ∧
    (safety_timer_callback n now).laser = LaserStatus.off := by
  unfold safety_timer_callback
  simp only [hpaired, Bool.true_eq_false, if_false, if_pos hseen, if_pos hgap]
  cases hl : n.laser
  all_goals simp [hl]

/-- C1 witness: the safety cutoff fires on the concrete node state. -/
theorem c1_safety_cutoff_witness :
    (safety_timer_callback example_laser_node 40000002).laser = LaserStatus.off ∧
    (safety_timer_callback example_laser_node 40000002).ledRed = true := by
  have h := c1_safety_cutoff example_laser_node 40000002 rfl (by decide) (by decide)
  exact ⟨(h.1 rfl).1, (h.1 rfl).2.1⟩

/-- C5: a received frame whose length differs from 40 bytes or whose
recomputed CRC-16 over the first 38 bytes differs from the carried
checksum is rejected before the registered callback runs, so it leaves
any callback-managed state unchanged. -/
theorem c5_invalid_frame_dropped (σ : Type) (callback : EspnowMessage → σ → σ)
    (bytes : List Nat) (s : σ)
    (h : bytes.length ≠ 40 ∨
      esp_crc16_le 0 (bytes.take 38) ≠ (parse_message bytes).checksum) :
    espnow_recv_cb bytes = none ∧ recv_update callback bytes s = s := by
  have hnone : espnow_recv_cb bytes = none := by
    unfold espnow_recv_cb
    rcases h with h | h
    · simp [h]
    · by_cases hl : bytes.length = 40
      · simp [hl, h]
      · simp [hl]
  exact ⟨hnone, by unfold recv_update; rw [hnone]⟩

/-- C5 witness: a one-byte frame is dropped and mutates nothing. -/
theorem c5_invalid_frame_dropped_witness :
    espnow_recv_cb [0] = none ∧
    recv_update (fun (_ : EspnowMessage) (k : Nat) => k + 1) [0] 0 = 0 :=
  c5_invalid_frame_dropped Nat (fun _ k => k + 1) [0] 0 (Or.inl (by decide))

/-- C7 counterexample: in the reachable PENALTY state, `game_pause` is
rejected and changes nothing, contradicting the claim that pause succeeds
in Running or Penalty. -/
theorem c7_pause_counterexample :
    g_penalty.currentState = GameState.penalty ∧
    (game_pause g_penalty).1 = EspErr.fail ∧
    (game_pause g_penalty).2 = g_penalty :=
  ⟨rfl, rfl, rfl⟩

/-- C7 amended: `game_pause` succeeds exactly in RUNNING (so it fails in
PENALTY) and `game_resume` succeeds exactly in PAUSED; every rejected
call returns the error and leaves the whole state unchanged. -/
theorem c7_pause_resume (g : GameLogic) :
    (g.currentState = GameState.running →
      game_pause g = (EspErr.ok, { g with currentState := GameState.paused })) ∧
    (g.currentState ≠ GameState.running → game_pause g = (EspErr.fail, g)) ∧
    (g.currentState = GameState.paused →
      game_resume g = (EspErr.ok, { g with currentState := GameState.running })) ∧
    (g.currentState ≠ GameState.paused → game_resume g = (EspErr.fail, g)) := by
  refine ⟨?_, ?_, ?_, ?_⟩ <;> intro h <;> simp [game_pause, game_resume, h]

/-- C7 witness: pausing the concrete running game succeeds and resuming
the paused game succeeds. -/
theorem c7_pause_resume_witness :
    game_pause g_running = (EspErr.ok, g_paused) ∧
    (game_resume g_paused).1 = EspErr.ok := by
  have h1 := (c7_pause_resume g_running).1 (by decide)
  have h2 := (c7_pause_resume g_paused).2.2.1 (by decide)
  exact ⟨h1, by rw [h2]⟩

/-- C2 counterexample: in the reachable PAUSED state (claimed to be an
active game that must reject `start`), `game_start` with an online laser
unit succeeds and moves the game to RUNNING. -/
theorem c2_start_gating_counterexample :
    g_paused.currentState = GameState.paused ∧
    (game_start g_paused example_units GameMode.singleSpeedrun none 2000).1 =
      EspErr.ok ∧
    (game_start g_paused example_units GameMode.singleSpeedrun none 2000).2.currentState =
      GameState.running :=
  ⟨rfl, rfl, rfl⟩

/-- C2 amended: `game_start` is rejected with the generic error only in
RUNNING or COUNTDOWN (not in PENALTY or PAUSED); in every other state it
is rejected with the distinct no-peers error exactly when no laser-role
peer is online; in all those states with an online laser peer it
succeeds, resets the player record, sets `start_time`, clears the penalty
accounting and enters RUNNING; every rejection leaves the state, player
record and statistics unchanged. -/
theorem c2_start_gating (g : GameLogic) (units : List LaserUnitInfo)
    (mode : GameMode) (playerName : Option String) (now : Nat) :
    ((g.currentState = GameState.running ∨ g.currentState = GameState.countdown) →
      game_start g units mode playerName now = (EspErr.fail, g)) ∧
    (g.currentState ≠ GameState.running → g.currentState ≠ GameState.countdown →
      game_has_laser_units units now = false →
      game_start g units mode playerName now = (EspErr.invalidState, g)) ∧
    (g.currentState ≠ GameState.running → g.currentState ≠ GameState.countdown →
      game_has_laser_units units now = true →
      (game_start g units mode playerName now).1 = EspErr.ok ∧
      (game_start g units mode playerName now).2.currentState = GameState.running ∧
      (game_start g units mode playerName now).2.currentPlayer.startTime = u32 now ∧
      (game_start g units mode playerName now).2.currentPlayer.beamBreaks = 0 ∧
      (game_start g units mode playerName now).2.currentPlayer.elapsedTime = 0 ∧
      (game_start g units mode playerName now).2.currentPlayer.completion =
        Completion.none ∧
      (game_start g units mode playerName now).2.currentPlayer.isActive = true ∧
      (game_start g units mode playerName now).2.totalPenaltyTime = 0 ∧
      (game_start g units mode playerName now).2.penaltyStartTime = 0 ∧
      (game_start g units mode playerName now).2.statistics = g.statistics ∧
      (game_start g units mode playerName now).2.configuration.mode = mode) := by
  refine ⟨?_, ?_, ?_⟩
  · intro h
    simp [game_start, h]
  · intro h1 h2 h3
    simp [game_start, h1, h2, h3]
  · intro h1 h2 h3
    simp [game_start, h1, h2, h3]

/-- C2 witness: starting from the concrete IDLE state with one online
laser unit succeeds and enters RUNNING with a fresh player record. -/
theorem c2_start_gating_witness :
    (game_start game_logic_init example_units GameMode.singleSpeedrun none 1000).1 =
      EspErr.ok ∧
    (game_start game_logic_init example_units GameMode.singleSpeedrun none 1000).2.currentState =
      GameState.running ∧
    (game_start game_logic_init example_units GameMode.singleSpeedrun none 1000).2.currentPlayer.startTime =
      1000 := by
  have h := (c2_start_gating game_logic_init example_units GameMode.singleSpeedrun
    none 1000).2.2 (by decide) (by decide) (by decide)
  exact ⟨h.1, h.2.1, by rw [h.2.2.1]; decide⟩

/-- A `uint32_t` difference is always below the 32-bit modulus. -/
theorem usub32_lt (a b : Nat) : usub32 a b < U32 :=
  Nat.mod_lt _ (by norm_num [U32])

/-- While RUNNING or PENALTY, the elapsed time returned by a status read
is the raw wall-clock delta plus the accumulated penalty time, whatever
branch (penalty-display expiry, auto-stop) the read takes. -/
theorem player_data_elapsed_formula (g : GameLogic) (now : Nat)
    (h : g.currentState = GameState.running ∨ g.currentState = GameState.penalty) :
    ((game_get_player_data g now).2.2).elapsedTime =
      uadd32 (usub32 now g.currentPlayer.startTime) g.totalPenaltyTime := by
  unfold game_get_player_data
  rcases h with h | h <;> simp [h] <;> split_ifs <;> simp_all

/-- C3: `game_beam_broken` is accepted only while RUNNING and is a no-op
returning an error in every other state (Penalty included); when accepted
it increments the break counter by exactly one (absent 16-bit wrap), and
unless the mode is TRAINING it enters PENALTY and adds the full penalty
to the accounting so that the next elapsed-time read at any instant `t`
is larger by exactly `penalty_time * 1000` ms than a read on the unbroken
state (absent 32-bit wrap); in TRAINING the break is counted, the state
stays RUNNING and the elapsed-time reads are unchanged. -/
theorem c3_beam_break (g : GameLogic) (sensorId now t : Nat) :
    (g.currentState ≠ GameState.running →
      game_beam_broken g sensorId now = (EspErr.fail, g)) ∧
    (g.currentState = GameState.running →
      (g.currentPlayer.beamBreaks + 1 < U16 →
        (game_beam_broken g sensorId now).2.currentPlayer.beamBreaks =
          g.currentPlayer.beamBreaks + 1) ∧
      (g.configuration.mode ≠ GameMode.training →
        (game_beam_broken g sensorId now).2.currentState = GameState.penalty ∧
        (game_beam_broken g sensorId now).2.totalPenaltyTime =
          uadd32 g.totalPenaltyTime (umul32 g.configuration.penaltyTime 1000) ∧
        (g.configuration.penaltyTime * 1000 < U32 →
          usub32 t g.currentPlayer.startTime + g.totalPenaltyTime +
            g.configuration.penaltyTime * 1000 < U32 →
          ((game_get_player_data (game_beam_broken g sensorId now).2 t).2.2).elapsedTime =
            ((game_get_player_data g t).2.2).elapsedTime +
              g.configuration.penaltyTime * 1000)) ∧
      (g.configuration.mode = GameMode.training →
        (game_beam_broken g sensorId now).2.currentState = GameState.running ∧
        (game_beam_broken g sensorId now).2.totalPenaltyTime = g.totalPenaltyTime ∧
        ((game_get_player_data (game_beam_broken g sensorId now).2 t).2.2).elapsedTime =
          ((game_get_player_data g t).2.2).elapsedTime)) := by
  refine ⟨?_, ?_⟩
  · intro h
    simp [game_beam_broken, h]
  · intro h
    refine ⟨?_, ?_, ?_⟩
    · intro hlt
      unfold game_beam_broken
      rw [if_neg (by simp [h])]
      split <;> exact Nat.mod_eq_of_lt hlt
    · intro hm
      have hr : (game_beam_broken g sensorId now).2 =
          { g with
            currentPlayer := { g.currentPlayer with
              beamBreaks := (g.currentPlayer.beamBreaks + 1) % U16 },
            currentState := GameState.penalty,
            penaltyStartTime := u32 now,
            totalPenaltyTime :=
              uadd32 g.totalPenaltyTime (umul32 g.configuration.penaltyTime 1000) } := by
        simp [game_beam_broken, h, hm]
      refine ⟨by rw [hr], by rw [hr], ?_⟩
      intro hpen hsum
      have hg := player_data_elapsed_formula g t (Or.inl h)
      have hrs : (game_beam_broken g sensorId now).2.currentState = GameState.penalty := by
        rw [hr]
      have hb := player_data_elapsed_formula (game_beam_broken g sensorId now).2 t
        (Or.inr hrs)
      have hstart : (game_beam_broken g sensorId now).2.currentPlayer.startTime =
          g.currentPlayer.startTime := by rw [hr]
      have htp : (game_beam_broken g sensorId now).2.totalPenaltyTime =
          uadd32 g.totalPenaltyTime (umul32 g.configuration.penaltyTime 1000) := by
        rw [hr]
      rw [hstart, htp] at hb
      rw [hb, hg]
      have hraw := usub32_lt t g.currentPlayer.startTime
      simp only [uadd32, umul32, usub32, U32] at *
      omega
    · intro hm
      have hr : (game_beam_broken g sensorId now).2 =
          { g with
            currentPlayer := { g.currentPlayer with
              beamBreaks := (g.currentPlayer.beamBreaks + 1) % U16 } } := by
        simp [game_beam_broken, h, hm]
      have hrs : (game_beam_broken g sensorId now).2.currentState = GameState.running := by
        rw [hr]; exact h
      refine ⟨hrs, by rw [hr], ?_⟩
      have hg := player_data_elapsed_formula g t (Or.inl h)
      have hb := player_data_elapsed_formula (game_beam_broken g sensorId now).2 t
        (Or.inl hrs)
      have hstart : (game_beam_broken g sensorId now).2.currentPlayer.startTime =
          g.currentPlayer.startTime := by rw [hr]
      have htp : (game_beam_broken g sensorId now).2.totalPenaltyTime =
          g.totalPenaltyTime := by rw [hr]
      rw [hstart, htp] at hb
      rw [hb, hg]

/-- C3 witness: on the concrete running game a break at t = 3000 is
counted, enters PENALTY, and the elapsed time read at t = 5000 is exactly
15000 ms (the configured 15 s penalty) above the unbroken read. -/
theorem c3_beam_break_witness :
    (game_beam_broken g_running 3 3000).2.currentPlayer.beamBreaks = 1 ∧
    (game_beam_broken g_running 3 3000).2.currentState = GameState.penalty ∧
    ((game_get_player_data (game_beam_broken g_running 3 3000).2 5000).2.2).elapsedTime =
      ((game_get_player_data g_running 5000).2.2).elapsedTime + 15000 := by
  have h := (c3_beam_break g_running 3 3000 5000).2 (by decide)
  refine ⟨h.1 (by decide), (h.2.1 (by decide)).1, ?_⟩
  have hj := (h.2.1 (by decide)).2.2 (by decide) (by decide)
  rw [hj]
  decide

/-- C4: while RUNNING or PENALTY with a positive configured time limit, a
status read whose recomputed elapsed time has reached
`max_time * 1000` ms drives the game to COMPLETE through the stop path
and classifies it `ABORTED_TIME`, not `ABORTED_MANUAL`. -/
theorem c4_time_limit_auto_stop (g : GameLogic) (now : Nat)
    (hstate : g.currentState = GameState.running ∨ g.currentState = GameState.penalty)
    (hmax : 0 < g.configuration.maxTime)
    (hthr : umul32 g.configuration.maxTime 1000 ≤
      uadd32 (usub32 now g.currentPlayer.startTime) g.totalPenaltyTime) :
    (game_get_player_data g now).1 = EspErr.ok ∧
    (game_get_player_data g now).2.1.currentState = GameState.complete ∧
    (game_get_player_data g now).2.1.currentPlayer.completion = Completion.abortedTime := by
  unfold game_get_player_data game_stop
  rcases hstate with h | h <;> simp [h, hmax, hthr] <;> split_ifs <;> simp_all

/-- C4 witness: with `max_time = 10` s, the concrete read at t = 12000 ms
(elapsed 11000 ms) completes the game as aborted by time limit. -/
theorem c4_time_limit_auto_stop_witness :
    (game_get_player_data g_timed 12000).2.1.currentState = GameState.complete ∧
    (game_get_player_data g_timed 12000).2.1.currentPlayer.completion =
      Completion.abortedTime := by
  have h := c4_time_limit_auto_stop g_timed 12000 (Or.inl (by decide)) (by decide)
    (by decide)
  exact ⟨h.2.1, h.2.2⟩

/-- C8 counterexample: after `start; stop` the game is COMPLETE with
`total_games = 1`, yet a second `stop` on the already-COMPLETE game is
accepted and updates the statistics again (`total_games = 2`) although no
second game was played; moreover completing a faster second game lowers
`best_time` from 4000 to 1000, so a statistics field does decrease. -/
theorem c8_statistics_counterexample :
    g_complete.currentState = GameState.complete ∧
    g_complete.statistics.totalGames = 1 ∧
    (game_stop g_complete 6000).1 = EspErr.ok ∧
    (game_stop g_complete 6000).2.statistics.totalGames = 2 ∧
    g_complete.statistics.bestTime = 4000 ∧
    g_complete2.statistics.bestTime = 1000 :=
  ⟨rfl, rfl, rfl, rfl, rfl, rfl⟩

/-- C8 amended: statistics change only when a game is finalized — start,
pause, resume and beam breaks leave them untouched; every accepted
`stop` (valid in every state except IDLE, COMPLETE included, which is how
a repeated stop double-counts one game) and every accepted `finish`
performs exactly one `update_statistics` step with the final elapsed
time; absent 32-bit wrap that step increments `total_games` by one and
never decreases the three running totals, while `best_time` is a running
minimum over completed games. -/
theorem c8_statistics_update (g : GameLogic) :
    (∀ units mode playerName now,
      (game_start g units mode playerName now).2.statistics = g.statistics) ∧
    ((game_pause g).2.statistics = g.statistics) ∧
    ((game_resume g).2.statistics = g.statistics) ∧
    (∀ sensorId now, (game_beam_broken g sensorId now).2.statistics = g.statistics) ∧
    (∀ now, g.currentState ≠ GameState.idle →
      (game_stop g now).1 = EspErr.ok ∧
      (game_stop g now).2.currentState = GameState.complete ∧
      (game_stop g now).2.statistics =
        update_statistics g.statistics
          (uadd32 (usub32 now g.currentPlayer.startTime) g.totalPenaltyTime)
          g.currentPlayer.beamBreaks) ∧
    (∀ now, (g.currentState = GameState.running ∨ g.currentState = GameState.penalty) →
      (game_finish g now).1 = EspErr.ok ∧
      (game_finish g now).2.statistics =
        update_statistics g.statistics
          (uadd32 (usub32 now g.currentPlayer.startTime) g.totalPenaltyTime)
          g.currentPlayer.beamBreaks) ∧
    (∀ elapsed breaks,
      g.statistics.totalGames + 1 < U32 →
      g.statistics.totalBeamBreaks + breaks < U32 →
      g.statistics.totalPlaytime + elapsed < U32 →
      (update_statistics g.statistics elapsed breaks).totalGames =
        g.statistics.totalGames + 1 ∧
      g.statistics.totalBeamBreaks ≤
        (update_statistics g.statistics elapsed breaks).totalBeamBreaks ∧
      g.statistics.totalPlaytime ≤
        (update_statistics g.statistics elapsed breaks).totalPlaytime ∧
      (update_statistics g.statistics elapsed breaks).bestTime =
        (if g.statistics.bestTime = 0 ∨ elapsed < g.statistics.bestTime then elapsed
         else g.statistics.bestTime)) := by
  refine ⟨?_, ?_, ?_, ?_, ?_, ?_, ?_⟩
  · intro units mode playerName now
    unfold game_start
    split_ifs <;> rfl
  · unfold game_pause
    split_ifs <;> rfl
  · unfold game_resume
    split_ifs <;> rfl
  · intro sensorId now
    unfold game_beam_broken
    split_ifs <;> rfl
  · intro now h
    unfold game_stop
    rw [if_neg h]
    exact ⟨rfl, rfl, rfl⟩
  · intro now h
    have hg : ¬ (g.currentState ≠ GameState.running ∧
        g.currentState ≠ GameState.penalty) := by
      rcases h with h | h <;> simp [h]
    unfold game_finish
    rw [if_neg hg]
    exact ⟨rfl, rfl⟩
  · intro elapsed breaks h1 h2 h3
    unfold update_statistics
    refine ⟨?_, ?_, ?_, rfl⟩ <;> simp only [uadd32, U32] at * <;> omega

/-- C8 witness: finalizing the concrete running game updates every total
exactly once. -/
theorem c8_statistics_update_witness :
    (game_stop g_running 5000).1 = EspErr.ok ∧
    (game_stop g_running 5000).2.statistics =
      update_statistics g_running.statistics 4000 0 := by
  have h := ((c8_statistics_update g_running).2.2.2.2.1 5000 (by decide))
  exact ⟨h.1, by rw [h.2.2]; decide⟩

/-- C9 counterexample: an unpaired finish node whose channel-scanning
flag was cleared by a `ChannelChange` command still broadcasts a
`PairingRequest` on every tick, but its scan position never advances and
no channel switch happens, contradicting the claimed unconditional
channel rotation while unpaired. -/
theorem c9_channel_scan_counterexample :
    fs_parked.isPaired = false ∧
    finish_pairing_timer_callback fs_parked =
      (fs_parked, { sentPairingRequestRole := some 2, switchedToChannel := none }) :=
  ⟨rfl, rfl⟩

/-- C9 amended: every unpaired pairing-timer tick broadcasts a
`PairingRequest` with the node's role (1 for laser, 2 for finish). On a
laser node each tick reaches the one-attempt-per-channel bound, so it
resets the counter and advances the channel, wrapping from 13 back to 1
and staying inside 1..13. On a finish node the rotation over the
configured sequence `[1, 6, 11]` (always selecting a member of that
sequence, index wrapping) happens only while the channel-scanning flag is
set; after a `ChannelChange` command clears the flag, an unpaired node
keeps broadcasting without rotating. -/
theorem c9_channel_scan (ls : LaserScan) (fs : FinishScan) :
    (ls.isPaired = false → ls.scanAttemptsOnChannel + 1 < 256 →
      (laser_pairing_timer_callback ls).2.sentPairingRequestRole = some 1 ∧
      (laser_pairing_timer_callback ls).1.scanAttemptsOnChannel = 0 ∧
      (1 ≤ ls.currentScanChannel → ls.currentScanChannel ≤ 13 →
        1 ≤ (laser_pairing_timer_callback ls).1.currentScanChannel ∧
        (laser_pairing_timer_callback ls).1.currentScanChannel ≤ 13 ∧
        (ls.currentScanChannel = 13 →
          (laser_pairing_timer_callback ls).1.currentScanChannel = 1) ∧
        (ls.currentScanChannel < 13 →
          (laser_pairing_timer_callback ls).1.currentScanChannel =
            ls.currentScanChannel + 1))) ∧
    (fs.isPaired = false →
      (finish_pairing_timer_callback fs).2.sentPairingRequestRole = some 2 ∧
      (fs.channelScanning = true →
        (finish_pairing_timer_callback fs).2.switchedToChannel =
          some (scanning_channels.getD fs.scanningChannelIndex 0) ∧
        (fs.scanningChannelIndex < scanning_channels.length →
          scanning_channels.getD fs.scanningChannelIndex 0 ∈ scanning_channels) ∧
        (finish_pairing_timer_callback fs).1.scanningChannelIndex =
          (fs.scanningChannelIndex + 1) % scanning_channels.length ∧
        (finish_pairing_timer_callback fs).1.scanningChannelIndex <
          scanning_channels.length)) := by
  constructor
  · intro hp hb
    have h1 : (ls.scanAttemptsOnChannel + 1) % 256 = ls.scanAttemptsOnChannel + 1 :=
      Nat.mod_eq_of_lt hb
    unfold laser_pairing_timer_callback
    rw [hp]
    simp only [Bool.false_eq_true, if_false, h1, MAX_ATTEMPTS_PER_CHANNEL]
    rw [if_pos (by omega)]
    refine ⟨rfl, rfl, ?_⟩
    intro hc1 hc13
    have hch : (ls.currentScanChannel + 1) % 256 = ls.currentScanChannel + 1 :=
      Nat.mod_eq_of_lt (by omega)
    simp only [MAX_WIFI_CHANNEL, hch]
    split_ifs with hgt
    · exact ⟨by omega, by omega, fun _ => rfl, fun hlt => by omega⟩
    · exact ⟨by omega, by omega, fun h13 => by omega, fun _ => rfl⟩
  · intro hp
    unfold finish_pairing_timer_callback
    rw [hp]
    simp only [Bool.false_eq_true, if_false]
    by_cases hs : fs.channelScanning = true
    · rw [if_pos hs]
      refine ⟨rfl, fun _ => ⟨rfl, ?_, rfl, ?_⟩⟩
      · intro hi
        rw [List.getD_eq_getElem _ _ hi]
        exact List.getElem_mem _
      · exact Nat.mod_lt _ (by decide)
    · rw [if_neg hs]
      exact ⟨rfl, fun h => absurd h hs⟩

/-- C9 witness: an unpaired laser node on channel 13 wraps to channel 1
and resets its attempt counter; an unpaired scanning finish node selects
channel 6 at index 1 and advances the index. -/
theorem c9_channel_scan_witness :
    (laser_pairing_timer_callback
      { isPaired := false, currentScanChannel := 13,
        scanAttemptsOnChannel := 0 }).1.currentScanChannel = 1 ∧
    (finish_pairing_timer_callback
      { isPaired := false, channelScanning := true,
        scanningChannelIndex := 1 }).2.switchedToChannel = some 6 := by
  have h1 := (c9_channel_scan
    { isPaired := false, currentScanChannel := 13, scanAttemptsOnChannel := 0 }
    { isPaired := false, channelScanning := true, scanningChannelIndex := 1 }).1
    rfl (by decide)
  have h2 := (c9_channel_scan
    { isPaired := false, currentScanChannel := 13, scanAttemptsOnChannel := 0 }
    { isPaired := false, channelScanning := true, scanningChannelIndex := 1 }).2
    rfl
  refine ⟨(h1.2.2 (by decide) (by decide)).2.2.1 rfl, ?_⟩
  exact ((h2.2 rfl).1).trans (by decide)

/-- The search loop of `update_laser_unit` finds no record exactly when
the module id is unknown to the registry. -/
theorem update_existing_none_iff (moduleId : Nat) (mac : List Nat) (rssi : Int)
    (role now : Nat) (units : List LaserUnitInfo) :
    update_existing moduleId mac rssi role now units = none ↔
      moduleId ∉ units.map LaserUnitInfo.moduleId := by
  induction units with
  | nil => simp [update_existing]
  | cons u rest ih =>
    by_cases h : u.moduleId = moduleId
    · simp [update_existing, h]
    · have h2 : moduleId ≠ u.moduleId := fun he => h he.symm
      simp [update_existing, h, ih, h2]

/-- When the search loop of `update_laser_unit` finds the record, it only
rewrites that record in place: the module-id column and every other
position are untouched and the length is unchanged. -/
theorem update_existing_some_spec (moduleId : Nat) (mac : List Nat) (rssi : Int)
    (role now : Nat) (units res : List LaserUnitInfo)
    (h : update_existing moduleId mac rssi role now units = some res) :
    res.map LaserUnitInfo.moduleId = units.map LaserUnitInfo.moduleId ∧
    res.length = units.length ∧
    ∀ i, (units.getD i dflt_unit).moduleId ≠ moduleId →
      res.getD i dflt_unit = units.getD i dflt_unit := by
  induction units generalizing res with
  | nil => simp [update_existing] at h
  | cons u rest ih =>
    unfold update_existing at h
    by_cases hm : u.moduleId = moduleId
    · rw [if_pos hm] at h
      cases h
      refine ⟨by simp [refreshed_unit], by simp, ?_⟩
      intro i hi
      cases i with
      | zero => exact absurd hm (by simpa using hi)
      | succ n => rfl
    · rw [if_neg hm] at h
      rcases Option.map_eq_some'.mp h with ⟨res', hres', hcons⟩
      obtain ⟨h1, h2, h3⟩ := ih res' hres'
      subst hcons
      refine ⟨by simp [h1], by simp [h2], ?_⟩
      intro i hi
      cases i with
      | zero => rfl
      | succ n => exact h3 n (by simpa using hi)

/-- C10: the coordinator registry operation `update_laser_unit` keeps the
registry at ≤ 10 records with pairwise-distinct module ids; a message
from a known module id rewrites that record in place (id column and all
other positions unchanged); a message from an unseen module id arriving
when the registry already holds 10 records leaves the registry completely
unchanged. -/
theorem c10_registry_bounded (units : List LaserUnitInfo) (moduleId : Nat)
    (mac : List Nat) (rssi : Int) (role now : Nat)
    (hlen : units.length ≤ MAX_LASER_UNITS)
    (hnodup : (units.map LaserUnitInfo.moduleId).Nodup) :
    (update_laser_unit units moduleId mac rssi role now).length ≤ MAX_LASER_UNITS ∧
    ((update_laser_unit units moduleId mac rssi role now).map
      LaserUnitInfo.moduleId).Nodup ∧
    (moduleId ∈ units.map LaserUnitInfo.moduleId →
      (update_laser_unit units moduleId mac rssi role now).map LaserUnitInfo.moduleId =
        units.map LaserUnitInfo.moduleId ∧
      ∀ i, (units.getD i dflt_unit).moduleId ≠ moduleId →
        (update_laser_unit units moduleId mac rssi role now).getD i dflt_unit =
          units.getD i dflt_unit) ∧
    (moduleId ∉ units.map LaserUnitInfo.moduleId → units.length = MAX_LASER_UNITS →
      update_laser_unit units moduleId mac rssi role now = units) := by
  rcases hex : update_existing moduleId mac rssi role now units with _ | res
  · have hnotmem : moduleId ∉ units.map LaserUnitInfo.moduleId :=
      (update_existing_none_iff moduleId mac rssi role now units).mp hex
    simp only [update_laser_unit, hex]
    by_cases hfull : units.length < MAX_LASER_UNITS
    · rw [if_pos hfull]
      refine ⟨?_, ?_, ?_, ?_⟩
      · simp only [List.length_append, List.length_singleton]
        omega
      · simp only [List.map_append, List.map_singleton]
        rw [List.nodup_append]
        refine ⟨hnodup, List.nodup_singleton _, ?_⟩
        intro a ha hb
        simp only [new_unit, List.mem_singleton] at hb
        rcases hb with rfl
        exact hnotmem ha
      · intro hmem
        exact absurd hmem hnotmem
      · intro _ hfull10
        omega
    · rw [if_neg hfull]
      refine ⟨hlen, hnodup, ?_, ?_⟩
      · intro hmem
        exact absurd hmem hnotmem
      · intro _ _
        rfl
  · obtain ⟨h1, h2, h3⟩ := update_existing_some_spec moduleId mac rssi role now units
      res hex
    have hmem : moduleId ∈ units.map LaserUnitInfo.moduleId := by
      by_contra hmem
      rw [(update_existing_none_iff moduleId mac rssi role now units).mpr hmem] at hex
      exact Option.noConfusion hex
    simp only [update_laser_unit, hex]
    exact ⟨by rw [h2]; exact hlen, by rw [h1]; exact hnodup,
      fun _ => ⟨h1, h3⟩, fun hnot _ => absurd hmem hnot⟩

/-- C10 witness: updating the known unit 1 leaves the id column `[1]`
unchanged, and a new unit offered to a full ten-record registry is
silently ignored. -/
theorem c10_registry_bounded_witness :
    (update_laser_unit example_units 1 [9, 9, 9, 9, 9, 9] (-40) 1 500).map
      LaserUnitInfo.moduleId = [1] ∧
    update_laser_unit ten_units 99 [9, 9, 9, 9, 9, 9] (-40) 1 500 = ten_units := by
  have h1 := (c10_registry_bounded example_units 1 [9, 9, 9, 9, 9, 9] (-40) 1 500
    (by decide) (by decide)).2.2.1 (by decide)
  have h2 := (c10_registry_bounded ten_units 99 [9, 9, 9, 9, 9, 9] (-40) 1 500
    (by decide) (by decide)).2.2.2 (by decide) (by decide)
  exact ⟨by rw [h1.1]; decide, h2⟩

/-- One CRC round keeps the state below `2 ^ 16`. -/
theorem crc16_round_lt (c : Nat) (h : c < 65536) : crc16_round c < 65536 := by
  unfold crc16_round
  split
  · have h1 : c / 2 < 2 ^ 16 := by norm_num; omega
    have h2 : (40961 : Nat) < 2 ^ 16 := by norm_num
    have := Nat.xor_lt_two_pow h1 h2
    norm_num at this
    exact this
  · omega

/-- Iterating CRC rounds keeps the state below `2 ^ 16`. -/
theorem crc16_round_iterate_lt (k x : Nat) (h : x < 65536) :
    crc16_round^[k] x < 65536 := by
  induction k generalizing x with
  | zero => simpa using h
  | succ n ih =>
    rw [Function.iterate_succ_apply]
    exact ih _ (crc16_round_lt x h)

/-- Folding a byte below `2 ^ 16` keeps the CRC state below `2 ^ 16`. -/
theorem crc16_byte_lt (crc b : Nat) (hc : crc < 65536) (hb : b < 65536) :
    crc16_byte crc b < 65536 := by
  unfold crc16_byte
  apply crc16_round_iterate_lt
  have h1 : crc < 2 ^ 16 := by norm_num; omega
  have h2 : b < 2 ^ 16 := by norm_num; omega
  have := Nat.xor_lt_two_pow h1 h2
  norm_num at this
  exact this

/-- The CRC-16 of a byte list fits in 16 bits. -/
theorem esp_crc16_le_lt (init : Nat) (bytes : List Nat) (hi : init < 65536)
    (hb : ∀ b ∈ bytes, b < 65536) : esp_crc16_le init bytes < 65536 := by
  unfold esp_crc16_le
  have hstart : 65535 ^^^ init < 65536 := by
    have := Nat.xor_lt_two_pow (x := 65535) (y := init) (n := 16) (by norm_num)
      (by norm_num; omega)
    norm_num at this
    exact this
  have hfold : ∀ (l : List Nat) (acc : Nat), acc < 65536 → (∀ b ∈ l, b < 65536) →
      l.foldl crc16_byte acc < 65536 := by
    intro l
    induction l with
    | nil => intro acc h _; simpa using h
    | cons x xs ih =>
      intro acc h hl
      rw [List.foldl_cons]
      exact ih _ (crc16_byte_lt acc x h (hl x (List.mem_cons_self x xs)))
        (fun b hbx => hl b (List.mem_cons_of_mem x hbx))
  have hf := hfold bytes (65535 ^^^ init) hstart hb
  have := Nat.xor_lt_two_pow (x := 65535) (y := bytes.foldl crc16_byte (65535 ^^^ init))
    (n := 16) (by norm_num) (by norm_num; omega)
  norm_num at this
  exact this

/-- C6: decoding the frame produced by the encoder passes the size and
checksum checks and yields back the same message type, module id,
timestamp and (zero-padded) 32-byte payload — decode composed with encode
is the identity on valid datagrams. -/
theorem c6_encode_decode (msgType moduleId timestamp : Nat) (data : List Nat)
    (h1 : msgType < 256) (h2 : moduleId < 256) (h3 : timestamp < U32)
    (h4 : data.length ≤ 32) (h5 : ∀ b ∈ data, b < 256) :
    ∃ frame, espnow_send_frame msgType moduleId timestamp data = some frame ∧
      Option.map (fun m => (m.msgType, m.moduleId, m.timestamp, m.data))
        (espnow_recv_cb frame) =
      some (msgType, moduleId, timestamp,
        data ++ List.replicate (32 - data.length) 0) := by
  set payload := data ++ List.replicate (32 - data.length) 0 with hpay
  have hplen : payload.length = 32 := by
    rw [hpay, List.length_append, List.length_replicate]
    omega
  set body := msgType % 256 :: moduleId % 256 :: (le_bytes4 timestamp ++ payload)
    with hbody
  have hblen : body.length = 38 := by
    rw [hbody]
    simp [le_bytes4, hplen]
  set c := esp_crc16_le 0 body with hc
  have hframe : espnow_send_frame msgType moduleId timestamp data =
      some (body ++ le_bytes2 c) := by
    unfold espnow_send_frame
    rw [if_neg (by omega)]
  refine ⟨body ++ le_bytes2 c, hframe, ?_⟩
  have hbytes : ∀ b ∈ body, b < 65536 := by
    intro b hb
    rw [hbody] at hb
    rcases List.mem_cons.mp hb with rfl | hb
    · exact lt_of_lt_of_le (Nat.mod_lt _ (by norm_num)) (by norm_num)
    rcases List.mem_cons.mp hb with rfl | hb
    · exact lt_of_lt_of_le (Nat.mod_lt _ (by norm_num)) (by norm_num)
    rcases List.mem_append.mp hb with hb | hb
    · simp only [le_bytes4, List.mem_cons, List.not_mem_nil, or_false] at hb
      rcases hb with rfl | rfl | rfl | rfl <;>
        exact lt_of_lt_of_le (Nat.mod_lt _ (by norm_num)) (by norm_num)
    rcases List.mem_append.mp hb with hb | hb
    · exact lt_of_lt_of_le (h5 b hb) (by norm_num)
    · rw [List.eq_of_mem_replicate hb]
      norm_num
  have hclt : c < 65536 := esp_crc16_le_lt 0 body (by norm_num) hbytes
  have hsplit : body ++ le_bytes2 c =
      [msgType % 256, moduleId % 256, timestamp % 256, timestamp / 256 % 256,
        timestamp / 65536 % 256, timestamp / 16777216 % 256] ++
        (payload ++ le_bytes2 c) := by
    rw [hbody]
    simp [le_bytes4]
  have hget : ∀ i : Nat, i < 6 → (body ++ le_bytes2 c).getD i 0 =
      ([msgType % 256, moduleId % 256, timestamp % 256, timestamp / 256 % 256,
        timestamp / 65536 % 256, timestamp / 16777216 % 256] : List Nat).getD i 0 := by
    intro i hi
    rw [hsplit]
    exact List.getD_append _ _ _ _ (by simpa using hi)
  have hlenF : (body ++ le_bytes2 c).length = 40 := by
    rw [List.length_append, hblen]
    rfl
  have htake : (body ++ le_bytes2 c).take 38 = body := List.take_left' hblen
  have hchk : (parse_message (body ++ le_bytes2 c)).checksum = c := by
    show read_u16_le (body ++ le_bytes2 c) 38 = c
    unfold read_u16_le
    rw [List.getD_append_right _ _ _ _ (by omega),
      List.getD_append_right _ _ _ _ (by omega), hblen]
    norm_num [le_bytes2]
    omega
  have hmsg : (parse_message (body ++ le_bytes2 c)).msgType = msgType := by
    show (body ++ le_bytes2 c).getD 0 0 = msgType
    rw [hget 0 (by norm_num)]
    exact Nat.mod_eq_of_lt h1
  have hmod : (parse_message (body ++ le_bytes2 c)).moduleId = moduleId := by
    show (body ++ le_bytes2 c).getD 1 0 = moduleId
    rw [hget 1 (by norm_num)]
    exact Nat.mod_eq_of_lt h2
  have hts : (parse_message (body ++ le_bytes2 c)).timestamp = timestamp := by
    show read_u32_le (body ++ le_bytes2 c) 2 = timestamp
    unfold read_u32_le
    rw [show (2 : Nat) + 1 = 3 from rfl, show (2 : Nat) + 2 = 4 from rfl,
      show (2 : Nat) + 3 = 5 from rfl, hget 2 (by norm_num), hget 3 (by norm_num),
      hget 4 (by norm_num), hget 5 (by norm_num)]
    show timestamp % 256 + 256 * (timestamp / 256 % 256) +
      65536 * (timestamp / 65536 % 256) + 16777216 * (timestamp / 16777216 % 256) =
      timestamp
    have h3b : timestamp < 4294967296 := h3
    omega
  have hdata : (parse_message (body ++ le_bytes2 c)).data = payload := by
    show (((body ++ le_bytes2 c).drop 6).take 32) = payload
    rw [hsplit, List.drop_left' (by rfl), List.take_left' hplen]
  have hrecv : espnow_recv_cb (body ++ le_bytes2 c) =
      some (parse_message (body ++ le_bytes2 c)) := by
    unfold espnow_recv_cb
    rw [if_neg (by rw [hlenF]; omega)]
    rw [if_neg (by rw [htake, hchk, ← hc]; omega)]
  rw [hrecv, Option.map_some']
  rw [hmsg, hmod, hts, hdata]

/-- C6 witness: a concrete `PairingRequest` datagram (type 7, module 5,
timestamp 123456, one-byte payload) survives the encode–decode round
trip. -/
theorem c6_encode_decode_witness :
    ∃ frame, espnow_send_frame 7 5 123456 [2] = some frame ∧
      Option.map (fun m => (m.msgType, m.moduleId, m.timestamp, m.data))
        (espnow_recv_cb frame) =
      some (7, 5, 123456, [2] ++ List.replicate 31 0) :=
  c6_encode_decode 7 5 123456 [2] (by decide) (by decide) (by decide)
    (by decide) (by decide)
